import Mathlib

/-!
Shallow embedding of the moderation, token-revocation and rating core of the
photoapp repository, together with theorems settling the claims about it.

The embedding models:
- `src/database/models.py` (not in the source tree): the `Role` enum, the
  `User`, `Rating` and `InvalidToken` records;
- `src/repository/users.py`: `get_user_by_email`, `get_user_username`,
  `create_user`, `ban_user`, `activate_user`, `invalidate_token`,
  `is_validate_token`;
- `src/routes/users.py`: the `manage_user` endpoint (ban / activate /
  change_role dispatch, self-action guard, cache invalidation);
- `src/routes/rating.py`: the `picture_ratings` and `remove_photo_rating`
  endpoints, over a repository layer modelled from the spec where the
  repository file is absent from the tree.

The database session is modelled as an explicit list of records threaded
through each operation; an HTTPException raised by a route is modelled as an
error constructor carrying the status code and the message key; the redis
cache invalidation is modelled as a trace of deleted keys.
-/

namespace PhotoApp

/-- The `Role` enum of `src/database/models.py` (modelled from the spec:
the models file is not in the tree; the spec fixes the enum as
admin, moderator, user). -/
inductive Role where
  | admin
  | moderator
  | user
deriving DecidableEq, Repr

/-- The `Action` enum of `src/schemas/users.py` (modelled from the spec:
the schema file is not in the tree; the route dispatches on exactly
ban, activate, change_role). -/
inductive Action where
  | ban
  | activate
  | change_role
deriving DecidableEq, Repr

/-- A `User` row. Only the columns the embedded operations read or write are
modelled: id, email (unique), username (unique), roles, is_active, confirmed. -/
structure User where
  id : Nat
  email : String
  username : String
  roles : Role
  is_active : Bool
  confirmed : Bool
deriving DecidableEq, Repr

/-- The users table of the entity store: the rows in insertion order. -/
abbrev UserDB := List User

/-- Embeds `get_user_by_email` of `src/repository/users.py`:
`select(User).filter_by(email=email)` then `.scalars().first()`. -/
def get_user_by_email (email : String) (db : UserDB) : Option User :=
  db.find? (fun u => u.email == email)

/-- Embeds `get_user_username` of `src/repository/users.py`:
`select(User).filter(User.username == username)` then `scalar_one_or_none()`. -/
def get_user_username (username : String) (db : UserDB) : Option User :=
  db.find? (fun u => u.username == username)

/-- Embeds `ban_user` of `src/repository/users.py`: look the user up by email, set
`is_active = False`, commit. Returns the updated user, or none when no user
has that email. -/
def ban_user (email : String) (db : UserDB) : Option User × UserDB :=
  match get_user_by_email email db with
  | none => (none, db)
  | some user =>
      let banned := { user with is_active := false }
      (some banned, db.map (fun u => if u.email == email then banned else u))

/-- Embeds `activate_user` of `src/repository/users.py`: look the user up by email,
set `is_active = True`, commit. -/
def activate_user (email : String) (db : UserDB) : Option User × UserDB :=
  match get_user_by_email email db with
  | none => (none, db)
  | some user =>
      let activated := { user with is_active := true }
      (some activated, db.map (fun u => if u.email == email then activated else u))

/-- Modelled from the spec: `repository_users.change_role` is called by the
route but absent from `src/repository/users.py` in the tree; per the spec's
change_role row, the effect is `target.role → new role`, committed. -/
def change_role (email : String) (role : Role) (db : UserDB) : Option User × UserDB :=
  match get_user_by_email email db with
  | none => (none, db)
  | some user =>
      let updated := { user with roles := role }
      (some updated, db.map (fun u => if u.email == email then updated else u))

/-- Result of the `manage_user` endpoint: a successful JSON response
`\x7b"user": ..., "detail": ...\x7d`, or a raised `HTTPException` with its
status code and message key. -/
inductive MUResult where
  | ok (user : Option User) (detail : String)
  | httpError (code : Nat) (detail : String)
deriving DecidableEq, Repr

/-- Full outcome of one `manage_user` call: the response, the redis keys
deleted during the call (in order), and the users table afterwards. -/
structure MUOutcome where
  result : MUResult
  cacheDeletes : List String
  db : UserDB
deriving DecidableEq, Repr

/-- Python evaluation of the source expression `(Role.admin or Role.moderator)`:
`or` returns its first operand when that operand is truthy, and every enum
member is truthy, so the expression denotes its first operand. -/
def pyOrRole (a _b : Role) : Role := a

/-- The `manage_user` endpoint of `src/routes/users.py`.

`role?` is the `role` query parameter as the client supplied it; FastAPI
substitutes the declared default `Role.user` when it is omitted, so the
endpoint body always receives a `Role` value and the source's
`if role is None` test is applied to `some _`. The redis
`delete(f"user:\x7bemail\x7d")` is recorded in `cacheDeletes`. -/
def manage_user (username : String) (action : Action) (role? : Option Role)
    (current_user : User) (db : UserDB) : MUOutcome :=
  -- FastAPI: `role: Role = Role.user` — an omitted query parameter becomes the default
  let roleParam : Option Role := some (role?.getD Role.user)
  match get_user_username username db with
  | none => ⟨.httpError 404 "USER_NOT_FOUND", [], db⟩
  | some user_action =>
      let deletes := ["user:" ++ user_action.email]
      if user_action.username == current_user.username then
        ⟨.ok (some user_action) "YOU_CANT_BAN_YOURSELF", deletes, db⟩
      else
        match action with
        | .ban =>
            if current_user.roles == pyOrRole Role.admin Role.moderator then
              if user_action.is_active then
                if user_action.username == current_user.username then
                  ⟨.ok (some user_action) "YOU_CANT_BAN_YOURSELF", deletes, db⟩
                else
                  let r := ban_user user_action.email db
                  ⟨.ok r.1 (user_action.username ++ " USER_HAS_BEEN_BANNED"), deletes, r.2⟩
              else
                ⟨.httpError 400 "USER_HAS_ALREADY_BANNED", deletes, db⟩
            else
              ⟨.httpError 401 "YOU_DONT_HAVE_PERMISSION_TO_BAN_USERS", deletes, db⟩
        | .activate =>
            if current_user.roles == Role.admin then
              if !user_action.is_active then
                let r := activate_user user_action.email db
                ⟨.ok r.1 (user_action.username ++ " USER_HAS_BEEN_ACTIVATED"), deletes, r.2⟩
              else
                ⟨.httpError 400 "USER_ALREADY_ACTIVATED", deletes, db⟩
            else
              ⟨.httpError 401 "YOU_DONT_HAVE_PERMISSION_FOR_ACTIVATE_USERS", deletes, db⟩
        | .change_role =>
            if current_user.roles == Role.admin then
              match roleParam with
              | none => ⟨.httpError 400 "NEW_ROLE_MUST_BE_SPECIFIED_FOR_CHANGING_ROLE", deletes, db⟩
              | some role =>
                  let r := change_role user_action.email role db
                  ⟨.ok r.1 "USERS_ROLE_HAS_BEEN_CHANGED_TO", deletes, r.2⟩
            else
              ⟨.httpError 401 "YOU_DONT_HAVE_PERMISSION_FOR_CHANGE_USER_ROLES", deletes, db⟩

/-- A `Rating` row: composite identity (user_id, picture_id) and an integer
value. -/
structure Rating where
  user_id : Nat
  picture_id : Nat
  rating : Nat
deriving DecidableEq, Repr

/-- The rating-side entity store: the picture ids that exist and the rating
rows. -/
structure RatingDB where
  pictures : List Nat
  ratings : List Rating
deriving DecidableEq, Repr

/-- The average-rating payload returned for a picture: the arithmetic mean of
the rating values (none when there are no ratings) and the number of ratings. -/
structure AverageRating where
  average : Option ℚ
  count : Nat
deriving DecidableEq, Repr

/-- Modelled from the spec: `src/repository/rating.py` is absent from the
tree; per the spec's `average(picture_id)` contract, the repository computes
the arithmetic mean of all Rating.value for the picture and returns
`count = 0, average = null-sentinel` when no ratings exist; the route's
`if not picture` 404 branch fixes that an absent picture yields a falsy
(none) repository result. -/
def repository_picture_ratings (picture_id : Nat) (db : RatingDB) :
    Option AverageRating :=
  if picture_id ∈ db.pictures then
    let rs := db.ratings.filter (fun r => r.picture_id == picture_id)
    some { average :=
             if rs.length = 0 then none
             else some (((rs.map (fun r => (r.rating : ℚ))).sum) / (rs.length : ℚ)),
           count := rs.length }
  else none

/-- Modelled from the spec: `src/repository/rating.py` is absent from the
tree; per the spec's `remove(picture_id, user_id)` contract the repository
deletes the Rating for the pair and returns it; the route's
`if not deleted_rating` branch fixes that a missing rating yields a falsy
(none) repository result, with nothing deleted. -/
def remove_rating (picture_id user_id : Nat) (db : RatingDB) :
    Option Rating × RatingDB :=
  match db.ratings.find? (fun r => r.picture_id == picture_id && r.user_id == user_id) with
  | none => (none, db)
  | some r =>
      (some r,
       { db with
         ratings := db.ratings.filter
           (fun x => !(x.picture_id == picture_id && x.user_id == user_id)) })

/-- Result of a rating route: the successful payload or a raised
`HTTPException` with its status code and message. -/
inductive RatingResult (α : Type) where
  | ok (val : α)
  | httpError (code : Nat) (detail : String)
deriving DecidableEq, Repr

/-- The `picture_ratings` endpoint of `src/routes/rating.py`: fetch the
aggregate from the repository and raise 404 "Picture not found!" when the
repository result is falsy. -/
def picture_ratings (picture_id : Nat) (db : RatingDB) :
    RatingResult AverageRating :=
  match repository_picture_ratings picture_id db with
  | none => .httpError 404 "Picture not found!"
  | some picture => .ok picture

/-- The `remove_photo_rating` endpoint of `src/routes/rating.py`: delete via
the repository and raise 400 "Unable to delete rating" when the repository
returned nothing. -/
def remove_photo_rating (picture_id user_id : Nat) (db : RatingDB) :
    RatingResult Rating × RatingDB :=
  match remove_rating picture_id user_id db with
  | (none, db1) => (.httpError 400 "Unable to delete rating", db1)
  | (some r, db1) => (.ok r, db1)

/-- An `InvalidToken` row: the revoked token string. -/
structure InvalidToken where
  token : String
deriving DecidableEq, Repr

/-- The invalid-token table of the entity store. -/
abbrev TokenDB := List InvalidToken

/-- Outcome of one `invalidate_token` call: a committed insert, or the
exception re-raised after rollback (the function's `except` clause catches
the commit failure, rolls back, and re-raises it untranslated). The
`conflict` constructor stands for the spec's typed `Conflict` error kind;
the embedded code never produces it. -/
inductive RevokeResult where
  | ok
  | conflict
  | raised (msg : String)
deriving DecidableEq, Repr

/-- Embeds `invalidate_token` of `src/repository/users.py`: add an `InvalidToken`
row and commit; on failure roll back and re-raise. The `token` column is
unique (modelled from the spec's "token string (unique)" and the function's
own docstring, which says an already-present token makes the steps fail and
roll back), so committing a duplicate raises the store's `IntegrityError`. -/
def invalidate_token (token : String) (db : TokenDB) : RevokeResult × TokenDB :=
  if db.any (fun it => it.token == token) then
    (.raised "IntegrityError", db)
  else
    (.ok, db ++ [⟨token⟩])

/-- Embeds `is_validate_token` of `src/repository/users.py`: select the
`InvalidToken` row with this token via `scalar_one_or_none()`; return true
when one exists, false otherwise. Executes only a select: the store is not
written. -/
def is_validate_token (token : String) (db : TokenDB) : Bool :=
  match db.find? (fun it => it.token == token) with
  | some _ => true
  | none => false

/-- A sequence of `invalidate_token` calls applied in order, keeping only the
resulting store (used to say "tokens ever passed to revoke"). -/
def revokeAll (tokens : List String) (db : TokenDB) : TokenDB :=
  tokens.foldl (fun d t => (invalidate_token t d).2) db

/-- The registration body handed to `create_user`. -/
structure UserModel where
  username : String
  email : String
  password : String
deriving DecidableEq, Repr

/-- Modelled from the spec: `src/database/models.py` is absent from the tree;
per the spec, the `roles` column of `User` defaults to `user` when the row is
created without an explicit role. -/
def defaultRole : Role := Role.user

/-- Embeds `create_user` of `src/repository/users.py`: probe the table with
`select(User).limit(1)`; when no user exists yet the new row is created with
`roles="admin"`, otherwise with the model's default role; then add, commit,
refresh. Returns the new user and the table afterwards. -/
def create_user (body : UserModel) (db : UserDB) : User × UserDB :=
  let existing_user : Option User := db.head?
  let new_user : User :=
    if existing_user = none then
      { id := db.length, email := body.email, username := body.username,
        roles := Role.admin, is_active := true, confirmed := false }
    else
      { id := db.length, email := body.email, username := body.username,
        roles := defaultRole, is_active := true, confirmed := false }
  (new_user, db ++ [new_user])

/-! Concrete fixtures used to evaluate the endpoints at specific inputs. -/

/-- An ordinary active user. -/
def alice : User :=
  { id := 1, email := "alice@example.com", username := "alice",
    roles := Role.user, is_active := true, confirmed := true }

/-- An active admin. -/
def boss : User :=
  { id := 2, email := "boss@example.com", username := "boss",
    roles := Role.admin, is_active := true, confirmed := true }

/-- An active moderator. -/
def moder : User :=
  { id := 3, email := "moder@example.com", username := "moder",
    roles := Role.moderator, is_active := true, confirmed := true }

/-- An active moderator, used as a change_role target. -/
def carol : User :=
  { id := 4, email := "carol@example.com", username := "carol",
    roles := Role.moderator, is_active := true, confirmed := true }

/-- A users table holding the four fixtures. -/
def usersDB : UserDB := [alice, boss, moder, carol]

/-!  Theorems settling the claims. -/

/-- C1: the claim says a moderator actor may ban an Active, non-self target.
In the source the guard is `current_user.roles == (Role.admin or Role.moderator)`,
and the Python `or` makes that a comparison with `Role.admin` alone, so the
moderator `moder` banning the active, distinct user `alice` is rejected with
401 YOU_DONT_HAVE_PERMISSION_TO_BAN_USERS and no state changes, while the
admin `boss` on the same request succeeds and bans alice — the code
contradicts the claim (and the route's own admin-or-moderator gate) exactly
on the moderator case. -/
theorem moderator_ban_denied_admin_ban_succeeds :
    (manage_user "alice" Action.ban none moder usersDB).result
        = MUResult.httpError 401 "YOU_DONT_HAVE_PERMISSION_TO_BAN_USERS"
      ∧ (manage_user "alice" Action.ban none moder usersDB).db = usersDB
      ∧ (manage_user "alice" Action.ban none boss usersDB).result
        = MUResult.ok (some { alice with is_active := false }) "alice USER_HAS_BEEN_BANNED"
      ∧ (manage_user "alice" Action.ban none boss usersDB).db
        = [{ alice with is_active := false }, boss, moder, carol] := by
  refine ⟨rfl, rfl, rfl, rfl⟩

/-- C2 counterexample: the claim says the cache-invalidation call is never
performed on a branch that ends in Forbidden; here a moderator's ban request
ends in the 401 branch yet the target's cache key was deleted, because the
source deletes the key right after the user lookup, before any check. -/
theorem cache_deleted_on_forbidden_branch :
    (manage_user "alice" Action.ban none moder usersDB).result
        = MUResult.httpError 401 "YOU_DONT_HAVE_PERMISSION_TO_BAN_USERS"
      ∧ (manage_user "alice" Action.ban none moder usersDB).cacheDeletes
        = ["user:alice@example.com"] := by
  refine ⟨rfl, rfl⟩

/-- C2 amended: the cache-invalidation call is attempted exactly once,
immediately after the target user is found and before the self-guard and all
role/state checks and any commit; it is performed on every branch where the
target exists — including branches ending in Forbidden, Conflict or the
self-action no-op — and is skipped only when the target is not found. -/
theorem cache_invalidation_on_lookup :
    ∀ (username : String) (action : Action) (role? : Option Role)
      (current_user : User) (db : UserDB),
      (manage_user username action role? current_user db).cacheDeletes
        = match get_user_username username db with
          | none => []
          | some u => ["user:" ++ u.email] := by
  intro username action role? current_user db
  unfold manage_user
  cases hu : get_user_username username db with
  | none => rfl
  | some u =>
      dsimp only
      split
      · rfl
      · cases action <;> dsimp only <;> (repeat' split) <;> rfl

/-- C3: for a picture that exists and has zero ratings, the average endpoint
returns a non-error payload with count = 0 and the null average sentinel;
absence of ratings is not reported as a failure and is distinguishable from
the 404 error raised for an absent picture. -/
theorem zero_ratings_ok_count_zero (picture_id : Nat) (db : RatingDB)
    (hpic : picture_id ∈ db.pictures)
    (hnone : db.ratings.filter (fun r => r.picture_id == picture_id) = []) :
    picture_ratings picture_id db = RatingResult.ok { average := none, count := 0 } := by
  unfold picture_ratings repository_picture_ratings
  rw [if_pos hpic, hnone]
  rfl

/-- C3 witness: picture 3 exists and has no ratings; the endpoint returns the
count-0, null-average payload. -/
theorem zero_ratings_ok_count_zero_witness :
    (3 ∈ (RatingDB.mk [3] []).pictures)
      ∧ picture_ratings 3 (RatingDB.mk [3] [])
        = RatingResult.ok { average := none, count := 0 } :=
  ⟨by decide, zero_ratings_ok_count_zero 3 (RatingDB.mk [3] []) (by decide) rfl⟩

/-- Helper: the membership check of `is_validate_token` agrees with `List.any`
over the token table. -/
theorem is_validate_token_eq_any (token : String) (db : TokenDB) :
    is_validate_token token db = db.any (fun it => it.token == token) := by
  induction db with
  | nil => rfl
  | cons it rest ih =>
      unfold is_validate_token at ih ⊢
      simp only [List.find?_cons, List.any_cons]
      cases h : it.token == token
      · simpa [h] using ih
      · simp [h]

/-- C4 counterexample: the claim says a second `revoke(t)` either no-ops or
fails with a typed Conflict error; in the code the duplicate insert makes the
commit raise, the except clause rolls back and re-raises the raw store
exception, so the second call on "tok" neither returns normally nor yields
the typed Conflict kind — it escapes as an unhandled fault. -/
theorem second_revoke_raises_untyped :
    (invalidate_token "tok" (invalidate_token "tok" []).2).1
        = RevokeResult.raised "IntegrityError"
      ∧ (invalidate_token "tok" (invalidate_token "tok" []).2).1 ≠ RevokeResult.ok
      ∧ (invalidate_token "tok" (invalidate_token "tok" []).2).1 ≠ RevokeResult.conflict := by
  refine ⟨rfl, by decide, by decide⟩

/-- C4 amended: after `revoke(t)` succeeds once, `is_revoked(t)` returns
true; a second `revoke(t)` leaves the registry unchanged (the staged insert
is rolled back) but propagates the raw store uniqueness exception, which is
not translated to a typed Conflict error. -/
theorem revoke_then_second_revoke (token : String) (db : TokenDB)
    (h : is_validate_token token db = false) :
    (invalidate_token token db).1 = RevokeResult.ok
      ∧ is_validate_token token (invalidate_token token db).2 = true
      ∧ (invalidate_token token (invalidate_token token db).2).1
        = RevokeResult.raised "IntegrityError"
      ∧ (invalidate_token token (invalidate_token token db).2).2
        = (invalidate_token token db).2 := by
  rw [is_validate_token_eq_any] at h
  have hfirst : invalidate_token token db
      = (RevokeResult.ok, db ++ [InvalidToken.mk token]) := by
    unfold invalidate_token
    rw [if_neg (by simp [h])]
  have h2 : (db ++ [InvalidToken.mk token]).any (fun it => it.token == token) = true := by
    simp [List.any_append]
  have hsecond : invalidate_token token (db ++ [InvalidToken.mk token])
      = (RevokeResult.raised "IntegrityError", db ++ [InvalidToken.mk token]) := by
    unfold invalidate_token
    rw [if_pos h2]
  refine ⟨?_, ?_, ?_, ?_⟩
  · simp only [hfirst]
  · simp only [hfirst, is_validate_token_eq_any, h2]
  · simp only [hfirst, hsecond]
  · simp only [hfirst, hsecond]

/-- C4 amended witness: revoking "tok" in the empty registry succeeds, makes
`is_validate_token` true, and a second revoke raises without changing the
registry. -/
theorem revoke_then_second_revoke_witness :
    is_validate_token "tok" [] = false
      ∧ ((invalidate_token "tok" []).1 = RevokeResult.ok
          ∧ is_validate_token "tok" (invalidate_token "tok" []).2 = true
          ∧ (invalidate_token "tok" (invalidate_token "tok" []).2).1
            = RevokeResult.raised "IntegrityError"
          ∧ (invalidate_token "tok" (invalidate_token "tok" []).2).2
            = (invalidate_token "tok" []).2) :=
  ⟨rfl, revoke_then_second_revoke "tok" [] rfl⟩

/-- C5: the claim says an omitted role makes change_role fail with BadRequest
and leave the target's role unchanged. The route declares
`role: Role = Role.user`, so an omitted query parameter arrives as
`Role.user`, the `role is None` guard never fires, and the admin `boss`
calling change_role on the moderator `carol` with the role omitted gets a
success response with carol's role silently overwritten to `user` — the
dead BadRequest branch shows the intended behaviour the default defeats. -/
theorem omitted_role_overwrites_to_user :
    (manage_user "carol" Action.change_role none boss usersDB).result
        = MUResult.ok (some { carol with roles := Role.user }) "USERS_ROLE_HAS_BEEN_CHANGED_TO"
      ∧ (manage_user "carol" Action.change_role none boss usersDB).db
        = [alice, boss, moder, { carol with roles := Role.user }] := by
  refine ⟨rfl, rfl⟩

/-- Status code carried by a rating-route result: none for a success. -/
def RatingResult.statusCode {α : Type} : RatingResult α → Option Nat
  | .ok _ => none
  | .httpError code _ => some code

/-- C6 counterexample: the claim says removing a nonexistent rating fails
with NotFound; for picture 3 / user 7, with no such rating in the store, the
route raises status 400 "Unable to delete rating" (the code the source uses
for bad requests, not the 404 it uses for absent entities), leaving the
store unchanged. -/
theorem remove_missing_rating_is_400 :
    (remove_photo_rating 3 7 (RatingDB.mk [3] [Rating.mk 5 3 4])).1.statusCode = some 400
      ∧ (remove_photo_rating 3 7 (RatingDB.mk [3] [Rating.mk 5 3 4])).1
        = RatingResult.httpError 400 "Unable to delete rating"
      ∧ (remove_photo_rating 3 7 (RatingDB.mk [3] [Rating.mk 5 3 4])).2
        = RatingDB.mk [3] [Rating.mk 5 3 4] := by
  refine ⟨rfl, rfl, rfl⟩

/-- C6 amended: for every pair (picture_id, user_id) with no existing Rating,
the remove endpoint fails with a 400 "Unable to delete rating" error (not a
404 NotFound) and deletes nothing. -/
theorem remove_missing_rating_400_no_delete (picture_id user_id : Nat) (db : RatingDB)
    (h : ∀ r ∈ db.ratings, ¬(r.picture_id = picture_id ∧ r.user_id = user_id)) :
    remove_photo_rating picture_id user_id db
      = (RatingResult.httpError 400 "Unable to delete rating", db) := by
  have hfind : db.ratings.find?
      (fun r => r.picture_id == picture_id && r.user_id == user_id) = none := by
    rw [List.find?_eq_none]
    intro r hr
    simp only [Bool.and_eq_true, beq_iff_eq]
    exact fun hc => h r hr hc
  unfold remove_photo_rating remove_rating
  rw [hfind]

/-- C6 amended witness: with only a rating by user 5 on picture 3 in the
store, removing the (3, 7) rating returns the 400 error and changes nothing. -/
theorem remove_missing_rating_400_no_delete_witness :
    (∀ r ∈ (RatingDB.mk [3] [Rating.mk 5 3 4]).ratings, ¬(r.picture_id = 3 ∧ r.user_id = 7))
      ∧ remove_photo_rating 3 7 (RatingDB.mk [3] [Rating.mk 5 3 4])
        = (RatingResult.httpError 400 "Unable to delete rating",
           RatingDB.mk [3] [Rating.mk 5 3 4]) :=
  ⟨by decide, remove_missing_rating_400_no_delete 3 7 _ (by decide)⟩

/-- Helper: whenever the target user is found and its username equals the
acting user's, `manage_user` answers with the no-op response and the users
table is untouched, for every action, role parameter, actor role and target
state — the guard sits before the action dispatch. -/
theorem manage_user_self_noop_aux (username : String) (action : Action)
    (role? : Option Role) (current_user : User) (db : UserDB) (u : User)
    (hu : get_user_username username db = some u)
    (hself : u.username = current_user.username) :
    manage_user username action role? current_user db
      = ⟨MUResult.ok (some u) "YOU_CANT_BAN_YOURSELF", ["user:" ++ u.email], db⟩ := by
  have hb : (u.username == current_user.username) = true := beq_iff_eq.mpr hself
  unfold manage_user
  rw [hu]
  dsimp only
  rw [if_pos hb]

/-- C7: a ban request whose target is the actor — any actor, any role, any
target state — returns the non-error YOU_CANT_BAN_YOURSELF no-op response
and leaves the users table (so is_active and roles) unchanged; the
self-action guard fires before any role or state check. -/
theorem self_ban_noop (username : String) (role? : Option Role)
    (current_user : User) (db : UserDB) (u : User)
    (hu : get_user_username username db = some u)
    (hself : u.username = current_user.username) :
    manage_user username Action.ban role? current_user db
      = ⟨MUResult.ok (some u) "YOU_CANT_BAN_YOURSELF", ["user:" ++ u.email], db⟩ :=
  manage_user_self_noop_aux username Action.ban role? current_user db u hu hself

/-- C7 witness: the admin `boss` banning themself gets the no-op response and
nothing changes. -/
theorem self_ban_noop_witness :
    get_user_username "boss" usersDB = some boss
      ∧ boss.username = boss.username
      ∧ manage_user "boss" Action.ban none boss usersDB
        = ⟨MUResult.ok (some boss) "YOU_CANT_BAN_YOURSELF",
           ["user:boss@example.com"], usersDB⟩ :=
  ⟨rfl, rfl, self_ban_noop "boss" none boss usersDB boss rfl rfl⟩

/-- C8 helper: a token absent from the registry stays absent through any
sequence of `invalidate_token` calls that never revokes it. -/
theorem not_revoked_preserved (t : String) (ts : List String) :
    ∀ db : TokenDB, t ∉ ts → is_validate_token t db = false →
      is_validate_token t (revokeAll ts db) = false := by
  induction ts with
  | nil =>
      intro db _ h
      simpa [revokeAll] using h
  | cons t0 rest ih =>
      intro db hmem h
      have ht0 : t0 ≠ t := by
        rintro rfl
        exact hmem (List.mem_cons_self _ _)
      have hstep : is_validate_token t (invalidate_token t0 db).2 = false := by
        rw [is_validate_token_eq_any] at h
        unfold invalidate_token
        split
        · rwa [is_validate_token_eq_any]
        · rw [is_validate_token_eq_any]
          simp [List.any_append, h, ht0]
      have hfold : revokeAll (t0 :: rest) db = revokeAll rest (invalidate_token t0 db).2 := rfl
      rw [hfold]
      exact ih _ (fun hx => hmem (List.mem_cons_of_mem _ hx)) hstep

/-- C8: a token never passed to `invalidate_token` is reported as not
revoked: starting from the empty registry, after any sequence of revocations
not containing t, `is_validate_token t` returns false — a plain value, not a
raised error, and the membership check only selects, never writes. -/
theorem never_revoked_is_false (t : String) (ts : List String) (h : t ∉ ts) :
    is_validate_token t (revokeAll ts []) = false :=
  not_revoked_preserved t ts [] h rfl

/-- C8 witness: after revoking only "b", the membership check for "a" is
false. -/
theorem never_revoked_is_false_witness :
    "a" ∉ ["b"] ∧ is_validate_token "a" (revokeAll ["b"] []) = false :=
  ⟨by decide, never_revoked_is_false "a" ["b"] (by decide)⟩

/-- C9: `create_user` against an empty users table seeds the new user with
role admin; against any non-empty table the new user gets the model's
default role, `user`. -/
theorem first_user_admin_else_default (body : UserModel) (db : UserDB)
    (h : db ≠ []) :
    (create_user body []).1.roles = Role.admin
      ∧ (create_user body db).1.roles = Role.user := by
  constructor
  · rfl
  · unfold create_user
    cases db with
    | nil => exact absurd rfl h
    | cons u rest => rfl

/-- C9 witness: the first registration is seeded admin; a registration with
`alice` already present gets role user. -/
theorem first_user_admin_else_default_witness :
    ([alice] : UserDB) ≠ []
      ∧ (create_user (UserModel.mk "dave" "dave@example.com" "pw") []).1.roles = Role.admin
      ∧ (create_user (UserModel.mk "dave" "dave@example.com" "pw") [alice]).1.roles = Role.user :=
  ⟨by decide,
   (first_user_admin_else_default (UserModel.mk "dave" "dave@example.com" "pw") [alice]
      (by decide)).1,
   (first_user_admin_else_default (UserModel.mk "dave" "dave@example.com" "pw") [alice]
      (by decide)).2⟩

/-- C10: the self-action guard is uniform across ban, activate and
change_role: for every action, when the target's username equals the acting
user's username, `manage_user` returns the no-op response before any role or
state precondition is evaluated and no entity mutation occurs. -/
theorem self_guard_uniform (username : String) (action : Action)
    (role? : Option Role) (current_user : User) (db : UserDB) (u : User)
    (hu : get_user_username username db = some u)
    (hself : u.username = current_user.username) :
    manage_user username action role? current_user db
      = ⟨MUResult.ok (some u) "YOU_CANT_BAN_YOURSELF", ["user:" ++ u.email], db⟩ :=
  manage_user_self_noop_aux username action role? current_user db u hu hself

/-- C10 witness: the non-admin moderator `moder` targeting themself with
change_role still gets the no-op response, with the table unchanged. -/
theorem self_guard_uniform_witness :
    get_user_username "moder" usersDB = some moder
      ∧ moder.username = moder.username
      ∧ manage_user "moder" Action.change_role (some Role.user) moder usersDB
        = ⟨MUResult.ok (some moder) "YOU_CANT_BAN_YOURSELF",
           ["user:moder@example.com"], usersDB⟩ :=
  ⟨rfl, rfl, self_guard_uniform "moder" Action.change_role (some Role.user) moder usersDB moder rfl rfl⟩

end PhotoApp
